import Mathlib

/-!
Space-SDL: the `Game` orchestrator (`src/Space/Game.cpp`)

A shallow embedding of the actor collection, the texture cache, the frame
update and the start-up / shut-down sequence of `Game`, followed by the
properties proved about them.

Conventions of the embedding

* A C++ pointer is a natural number, `nullptr` is `0`.
* `std::vector<Actor*>` is a `List Ptr` (index `0` is `begin()`).
* `std::unordered_map<std::string, SDL_Texture*>` is an association list with
  `map_find` / `map_emplace`; the iteration order of the real container is
  unspecified, the list order stands for whichever order it has.
* Calls into SDL / SDL_image are answered by an `Env` (an oracle that may depend
  on everything that happened before) and recorded in the ghost field
  `Game.trace`, so that "is called", "is called once" and "is called before"
  are statements about that list.
* `Uint32` values are naturals reduced modulo `2 ^ 32`; `float` values are the
  finite non-negative binary32 numbers, held exactly as a multiple of `2 ^ (-149)`.
-/

namespace Space

/-! ## Pointers, actor states, events -/

/-- A machine pointer (`Actor*`, `SDL_Texture*`, `SDL_Surface*`, `SDL_Window*`, ...). -/
abbrev Ptr := Nat

/-- The null pointer. -/
def nullptr : Ptr := 0

namespace Actor

/-- The enum `Actor::State` of `Actor.h`. -/
inductive State
  | EActive
  | EPaused
  | EDead
  deriving DecidableEq, Repr

end Actor

/-- The state every live actor reports through `Actor::GetState`. -/
abbrev ActorStates := Ptr → Actor.State

/-! ## binary32 arithmetic -/

/-- A finite non-negative binary32 value `units * 2 ^ (-149)`. -/
structure Float32 where
  units : Nat
  deriving DecidableEq, Repr

namespace Float32

/-- Worker of `ilog2`: at most `fuel` halvings. -/
def ilog2_go : Nat → Nat → Nat
  | 0, _ => 0
  | fuel + 1, n => if n < 2 then 0 else ilog2_go fuel (n / 2) + 1

/-- The position of the highest set bit, `⌊log₂ n⌋` (and `0` for `n = 0`). -/
def ilog2 (n : Nat) : Nat := ilog2_go n n

/-- The nearest binary32 value (ties to even) to the non-negative rational
`num / den` counted in units of `2 ^ (-149)`; below `2 ^ 128`, where binary32 does
not overflow. A value whose integer part has `e + 1` bits keeps 24 significant
bits, so its spacing is `2 ^ (e - 23)` units (one unit in the lowest binade and
for subnormals). -/
def round (num den : Nat) : Float32 :=
  let ulp := 2 ^ (ilog2 (num / den) - 23)
  let d := den * ulp
  let n := num / d
  let r := num % d
  if 2 * r < d then ⟨n * ulp⟩
  else if d < 2 * r then ⟨(n + 1) * ulp⟩
  else if n % 2 = 0 then ⟨n * ulp⟩
  else ⟨(n + 1) * ulp⟩

/-- Conversion `Uint32 → float`. -/
def ofUint32 (n : Nat) : Float32 := round (n * 2 ^ 149) 1

/-- The literal of the decimal fraction `num / den`, such as `0.05f` or `1000.0f`. -/
def literal (num den : Nat) : Float32 := round (num * 2 ^ 149) den

/-- Division `a / b` in binary32 (`b` not zero). -/
def div (a b : Float32) : Float32 := round (a.units * 2 ^ 149) b.units

instance : LE Float32 := ⟨fun a b => a.units ≤ b.units⟩

instance : LT Float32 := ⟨fun a b => a.units < b.units⟩

instance (a b : Float32) : Decidable (a ≤ b) := inferInstanceAs (Decidable (a.units ≤ b.units))

instance (a b : Float32) : Decidable (a < b) := inferInstanceAs (Decidable (a.units < b.units))

end Float32

/-! ## The trace of external calls -/

/-- One observable step: a call into SDL / SDL_image, a `new` / `delete`
expression, or a call of `Actor::Update`. -/
inductive Event
  | SDL_Init
  | SDL_CreateWindow
  | SDL_CreateRenderer (window : Ptr)
  | IMG_Init
  | SDL_Log (fmt : String)
  | SDL_GetTicks
  | IMG_Load (file : String)
  | SDL_CreateTextureFromSurface (renderer surf : Ptr)
  | SDL_FreeSurface (surf : Ptr)
  | SDL_DestroyTexture (tex : Ptr)
  | new_Background (actor : Ptr)
  | delete_Actor (actor : Ptr)
  | Actor_Update (actor : Ptr) (deltaTime : Float32)
  | IMG_Quit
  | SDL_DestroyRenderer (renderer : Ptr)
  | SDL_DestroyWindow (window : Ptr)
  | SDL_Quit
  deriving DecidableEq, Repr

/-- The answers of the platform. The four acquisition steps of `Initialize` are
each attempted at most once and are given as plain results; the clock, the image
decoder, the texture conversion and the allocator may answer differently on every
call and so see the whole history. -/
structure Env where
  /-- Return code of `SDL_Init(SDL_INIT_VIDEO|SDL_INIT_AUDIO)`; `0` is success. -/
  SDL_Init : Int
  /-- Result of `SDL_CreateWindow(...)`; null is failure. -/
  SDL_CreateWindow : Ptr
  /-- Result of `SDL_CreateRenderer(window, ...)`; null is failure. -/
  SDL_CreateRenderer : Ptr → Ptr
  /-- Return value of `IMG_Init(IMG_INIT_PNG)`; `0` is failure. -/
  IMG_Init : Int
  /-- Reading of `SDL_GetTicks()` after the given history. -/
  SDL_GetTicks : List Event → Nat
  /-- Result of `IMG_Load(file)` after the given history; null is failure. -/
  IMG_Load : List Event → String → Ptr
  /-- Result of `SDL_CreateTextureFromSurface(renderer, surf)`; null is failure. -/
  SDL_CreateTextureFromSurface : List Event → Ptr → Ptr → Ptr
  /-- Address returned by `new Background(...)`. -/
  new_Background : List Event → Ptr

/-! ## Strings and the texture map -/

/-- The C string `s.c_str()` read as a NUL-terminated string: the characters
before the first NUL. A `std::string` may hold NUL characters; what
`IMG_Load(fileName.c_str())` sees and what `emplace(fileName.c_str(), tex)` builds
its `std::string` key from ends at the first of them. -/
def c_str (s : String) : String := ⟨s.data.takeWhile (fun c => c ≠ Char.ofNat 0)⟩

/-- The lookup `_mapTextures.find(key)`: `none` is `end()`, `some tex` is
`iter->second`. -/
def map_find (m : List (String × Ptr)) (key : String) : Option Ptr :=
  match m with
  | [] => none
  | (k, v) :: rest => if k = key then some v else map_find rest key

/-- The insertion `_mapTextures.emplace(key, tex)`: nothing happens when the key
is already present. -/
def map_emplace (m : List (String × Ptr)) (key : String) (tex : Ptr) : List (String × Ptr) :=
  match map_find m key with
  | some _ => m
  | none => m ++ [(key, tex)]

/-! ## `std::vector<Actor*>` operations used by `RemoveActor` -/

/-- The iterator `std::find(v.begin(), v.end(), x)` as an index: the first
position holding `x`, or `v.size()` for `v.end()`. -/
def std_find (v : List Ptr) (x : Ptr) : Nat :=
  match v with
  | [] => 0
  | y :: rest => if y = x then 0 else std_find rest x + 1

/-- The exchange `std::iter_swap(v.begin() + i, v.begin() + j)`. -/
def iter_swap (v : List Ptr) (i j : Nat) : List Ptr :=
  match v[i]?, v[j]? with
  | some x, some y => (v.set i y).set j x
  | _, _ => v

/-- The truncation `v.pop_back()`. -/
def pop_back (v : List Ptr) : List Ptr := v.dropLast

/-! ## Game -/

/-- Modelled from the spec: the class declaration `Game.h` is absent. The data
members are the ones `Game.cpp` uses, with the types the spec's data model and
their uses give them: "actors: ordered collection of Actor" (a
`std::vector<Actor*>`), "textureCache: mapping from resolved path to Texture
handle" (a map from `std::string` to `SDL_Texture*`), "isRunning: boolean",
"lastTickTime: timestamp" (a `Uint32`, the type of `SDL_GetTicks()`),
"assetRootPath: string". The field `trace` is ghost state. -/
structure Game where
  _pWindow : Ptr
  _pRenderer : Ptr
  _isRunning : Bool
  directory_path : String
  _ticksCount : Nat
  _vecActors : List Ptr
  _mapTextures : List (String × Ptr)
  trace : List Event

namespace Game

/-- Append one event to the ghost trace. -/
def emit (g : Game) (e : Event) : Game := { g with trace := g.trace ++ [e] }

/-- The constructor `Game::Game(std::string dir)`. It leaves `_ticksCount`
uninitialised; `0` stands for that value. -/
def new (dir : String) : Game :=
  { _pWindow := nullptr, _pRenderer := nullptr, _isRunning := true, directory_path := dir,
    _ticksCount := 0, _vecActors := [], _mapTextures := [], trace := [] }

/-- The member `Game::AddActor`. -/
def AddActor (g : Game) (actor : Ptr) : Game :=
  { g with _vecActors := g._vecActors ++ [actor] }

/-- The member `Game::RemoveActor`. -/
def RemoveActor (g : Game) (actor : Ptr) : Game :=
  let iter := std_find g._vecActors actor
  if iter ≠ g._vecActors.length then
    { g with _vecActors := pop_back (iter_swap g._vecActors iter (g._vecActors.length - 1)) }
  else g

/-- Modelled from the spec: the destructor `Actor::~Actor` lives in `Actor.cpp`,
which is absent. "Destruction deregisters from Game and destroys every owned
component"; the comments of `Game.cpp` say the same ("~Actor calls RemoveActor",
"which removes them from _actors"). Its effect on `Game` is the call of
`RemoveActor`; the `delete` expression itself is recorded in the trace. -/
def delete_Actor (g : Game) (actor : Ptr) : Game :=
  (g.emit (.delete_Actor actor)).RemoveActor actor

/-- The member `Game::GetTexture`; returns the handle and the new `Game`. -/
def GetTexture (env : Env) (g : Game) (fileName_ : String) : Ptr × Game :=
  let fileName := g.directory_path ++ fileName_
  match map_find g._mapTextures fileName with
  | some tex => (tex, g)
  | none =>
    let surf := env.IMG_Load g.trace (c_str fileName)
    let g := g.emit (.IMG_Load (c_str fileName))
    if surf = nullptr then
      (nullptr, g.emit (.SDL_Log "Failed to load texture file %s"))
    else
      let tex := env.SDL_CreateTextureFromSurface g.trace g._pRenderer surf
      let g := (g.emit (.SDL_CreateTextureFromSurface g._pRenderer surf)).emit (.SDL_FreeSurface surf)
      if tex = nullptr then
        (nullptr, g.emit (.SDL_Log "Failed to convert surface to texture for %s"))
      else
        (tex, { g with _mapTextures := map_emplace g._mapTextures (c_str fileName) tex })

/-- Number of calls of the image decoder `IMG_Load` recorded so far. -/
def decoderCalls (g : Game) : Nat :=
  (g.trace.filter (fun e => match e with | .IMG_Load _ => true | _ => false)).length

/-! ### Start-up -/

/-- Modelled from the spec: the constructor `Actor::Actor(Game*)` lives in
`Actor.cpp`, which is absent. "Construction registers the actor with its Game":
its effect on `Game` is the call `AddActor(this)`. -/
def new_Actor (g : Game) (this : Ptr) : Game := g.AddActor this

/-- The expression `new Background(this)` of `_loadData`, with the constructor
`Background::Background(Game*)` of `Background.cpp` seen from `Game`: the base
constructor runs first, then the body asks for the texture
`"Assets/Farback01.png"` (the position and the sprite component it sets up
belong to the actor). -/
def new_Background (env : Env) (g : Game) : Game :=
  let bg := env.new_Background g.trace
  let g := (g.emit (.new_Background bg)).new_Actor bg
  (g.GetTexture env "Assets/Farback01.png").2

/-- The member `Game::_loadData`. -/
def _loadData (env : Env) (g : Game) : Game := g.new_Background env

/-- The member `Game::Initialize`; returns the result and the new `Game`. -/
def Initialize (env : Env) (g : Game) : Bool × Game :=
  let g := g.emit .SDL_Init
  if env.SDL_Init ≠ 0 then
    (false, g.emit (.SDL_Log "Unable to initialize SDL: %s"))
  else
    let g := { g.emit .SDL_CreateWindow with _pWindow := env.SDL_CreateWindow }
    if g._pWindow = nullptr then
      (false, g.emit (.SDL_Log "Failed to create window: %s"))
    else
      let g := { g.emit (.SDL_CreateRenderer g._pWindow) with
                 _pRenderer := env.SDL_CreateRenderer g._pWindow }
      if g._pRenderer = nullptr then
        (false, g.emit (.SDL_Log "Failed to create renderer: %s"))
      else
        let g := g.emit .IMG_Init
        if env.IMG_Init = 0 then
          (false, g.emit (.SDL_Log "Unable to initialize SDL_image: %s"))
        else
          let g := g._loadData env
          let g := { g.emit .SDL_GetTicks with _ticksCount := env.SDL_GetTicks g.trace % 2 ^ 32 }
          (true, g)

/-! ### The frame update -/

/-- The SDL macro `SDL_TICKS_PASSED(A, B)`, `((Sint32)((B) - (A)) <= 0)`, on
`Uint32` operands. -/
def SDL_TICKS_PASSED (A B : Nat) : Bool :=
  let d := (B % 2 ^ 32 + 2 ^ 32 - A % 2 ^ 32) % 2 ^ 32
  d = 0 || 2 ^ 31 ≤ d

/-- Lines 101-102 of `_updateGame`: spin until 16 ms have passed since
`_ticksCount`. The loop has no bound of its own; `fuel` bounds the number of
clock readings and `none` means it ran out. -/
def _updateGame_wait (env : Env) : Nat → Game → Option Game
  | 0, _ => none
  | fuel + 1, g =>
    let now := env.SDL_GetTicks g.trace % 2 ^ 32
    let g := g.emit .SDL_GetTicks
    if !SDL_TICKS_PASSED now (g._ticksCount + 16) then _updateGame_wait env fuel g
    else some g

/-- Lines 105-108 of `_updateGame`: the capped `deltaTime` computed from the
reading `now` of `SDL_GetTicks()` and the stored `_ticksCount`. -/
def deltaTime (now ticksCount : Nat) : Float32 :=
  let elapsed := (now % 2 ^ 32 + 2 ^ 32 - ticksCount % 2 ^ 32) % 2 ^ 32
  let deltaTime := Float32.div (Float32.ofUint32 elapsed) (Float32.literal 1000 1)
  if Float32.literal 5 100 < deltaTime then Float32.literal 5 100 else deltaTime

/-- Lines 111-114 of `_updateGame`: `actor->Update(deltaTime)` for every actor of
the collection, in order. `Actor::Update` lives in the absent `Actor.cpp`; its
effect on the actors is the parameter `Update`, and it is taken not to add to or
remove from `_vecActors` while the collection is being iterated (which the range
`for` does not permit). -/
def _updateGame_update (Update : Ptr → Float32 → ActorStates → ActorStates)
    (deltaTime : Float32) (g : Game) (st : ActorStates) : Game × ActorStates :=
  g._vecActors.foldl
    (fun acc actor => (acc.1.emit (.Actor_Update actor deltaTime), Update actor deltaTime acc.2))
    (g, st)

/-- Lines 118-123 of `_updateGame`: the temporary vector `deadActors`. -/
def deadActors (g : Game) (st : ActorStates) : List Ptr :=
  g._vecActors.filter (fun actor => st actor = Actor.State.EDead)

/-- Lines 116-128 of `_updateGame`: collect the dead actors, then `delete` each
of them. -/
def _updateGame_cleanup (g : Game) (st : ActorStates) : Game :=
  (g.deadActors st).foldl (fun g actor => g.delete_Actor actor) g

/-- Lines 104-128 of `_updateGame`, everything after the wait. -/
def _updateGame_frame (env : Env) (Update : Ptr → Float32 → ActorStates → ActorStates)
    (g : Game) (st : ActorStates) : Game × ActorStates :=
  let dt := deltaTime (env.SDL_GetTicks g.trace) g._ticksCount
  let g := g.emit .SDL_GetTicks
  let g := { g.emit .SDL_GetTicks with _ticksCount := env.SDL_GetTicks g.trace % 2 ^ 32 }
  let r := g._updateGame_update Update dt st
  (r.1._updateGame_cleanup r.2, r.2)

/-- The member `Game::_updateGame`. -/
def _updateGame (env : Env) (Update : Ptr → Float32 → ActorStates → ActorStates)
    (fuel : Nat) (g : Game) (st : ActorStates) : Option (Game × ActorStates) :=
  match g._updateGame_wait env fuel with
  | none => none
  | some g => some (g._updateGame_frame env Update st)

/-! ### Shut-down -/

/-- Lines 155-157 of `_unloadData`: `while (!_vecActors.empty()) delete
_vecActors.back();`. `fuel` bounds the number of iterations and `none` means it
ran out. -/
def _unloadData_loop : Nat → Game → Option Game
  | 0, g => if g._vecActors.isEmpty then some g else none
  | fuel + 1, g =>
    match g._vecActors.getLast? with
    | none => some g
    | some back => _unloadData_loop fuel (g.delete_Actor back)

/-- Lines 160-163 of `_unloadData`: destroy every cached texture, then clear the
map. -/
def _unloadData_textures (g : Game) : Game :=
  { g with
    trace := g.trace ++ g._mapTextures.map (fun i => Event.SDL_DestroyTexture i.2)
    _mapTextures := [] }

/-- The member `Game::_unloadData`. -/
def _unloadData (fuel : Nat) (g : Game) : Option Game :=
  (g._unloadData_loop fuel).map _unloadData_textures

/-- The member `Game::Shutdown`. -/
def Shutdown (fuel : Nat) (g : Game) : Option Game :=
  (g._unloadData fuel).map fun g =>
    (((g.emit .IMG_Quit).emit (.SDL_DestroyRenderer g._pRenderer)).emit
      (.SDL_DestroyWindow g._pWindow)).emit .SDL_Quit

end Game

end Space

namespace Space

/-! ## Concrete inputs used by the witnesses -/

/-- A platform on which every acquisition step succeeds, the clock advances by
20 ms per recorded event, the decoder knows the files `"a"` and `"b"` only, and
every texture conversion succeeds with a fresh handle. -/
def sampleEnv : Env :=
  { SDL_Init := 0
    SDL_CreateWindow := 5
    SDL_CreateRenderer := fun _ => 6
    IMG_Init := 2
    SDL_GetTicks := fun t => 100 + 20 * t.length
    IMG_Load := fun t file => if file = "a" ∨ file = "b" then 10 + t.length else 0
    SDL_CreateTextureFromSurface := fun t _ _ => 100 + t.length
    new_Background := fun _ => 77 }

/-- The platform `sampleEnv` on which the renderer cannot be created. -/
def sampleEnvNoRenderer : Env :=
  { sampleEnv with SDL_CreateRenderer := fun _ => nullptr }

/-- A game holding the actors `1, 2, 3, 2, 5` and two cached textures. -/
def sampleGame : Game :=
  { Game.new "" with
    _vecActors := [1, 2, 3, 2, 5]
    _mapTextures := [("x", 9), ("y", 8)] }

/-- A game holding the distinct actors `1, 2, 3, 4, 5` and two cached textures. -/
def sampleGameNodup : Game :=
  { Game.new "" with
    _vecActors := [1, 2, 3, 4, 5]
    _mapTextures := [("x", 9), ("y", 8)] }

/-- The platform `sampleEnv` on which every texture conversion fails. -/
def sampleEnvNoConversion : Env :=
  { sampleEnv with SDL_CreateTextureFromSurface := fun _ _ _ => nullptr }

/-- Actors `1`, `2` and `5` are dead, every other actor is active. -/
def sampleStatesManyDead : ActorStates :=
  fun a => if a = 1 ∨ a = 2 ∨ a = 5 then .EDead else .EActive

end Space

/-! ## Lemmas on the actor collection -/

namespace Space

theorem std_find_le (v : List Ptr) (x : Ptr) : std_find v x ≤ v.length := by
  induction v with
  | nil => simp [std_find]
  | cons y rest ih =>
    simp only [std_find, List.length_cons]
    split <;> omega

theorem std_find_eq_length_iff (v : List Ptr) (x : Ptr) : std_find v x = v.length ↔ x ∉ v := by
  induction v with
  | nil => simp [std_find]
  | cons y rest ih =>
    simp only [std_find, List.length_cons, List.mem_cons, not_or]
    by_cases h : y = x
    · simp [h]
    · simp only [h, if_false, Nat.add_right_cancel_iff, ih]
      constructor
      · intro h2; exact ⟨fun e => h e.symm, h2⟩
      · intro h2; exact h2.2

theorem std_find_lt_of_mem {v : List Ptr} {x : Ptr} (h : x ∈ v) : std_find v x < v.length := by
  have h1 := std_find_le v x
  have h2 : std_find v x ≠ v.length := fun e => (std_find_eq_length_iff v x).1 e h
  omega

theorem getElem?_std_find {v : List Ptr} {x : Ptr} (h : x ∈ v) : v[std_find v x]? = some x := by
  induction v with
  | nil => simp at h
  | cons y rest ih =>
    simp only [std_find]
    by_cases hy : y = x
    · simp [hy]
    · simp only [hy, if_false, List.getElem?_cons_succ]
      rcases List.mem_cons.1 h with e | e
      · exact absurd e.symm hy
      · exact ih e

theorem std_find_first (v : List Ptr) (x : Ptr) (j : Nat) (hj : j < std_find v x) :
    v[j]? ≠ some x := by
  induction v generalizing j with
  | nil => simp
  | cons y rest ih =>
    simp only [std_find] at hj
    by_cases hy : y = x
    · simp [hy] at hj
    · simp only [hy, if_false] at hj
      cases j with
      | zero => simpa using hy
      | succ k => simpa using ih k (by omega)

/-- An index holding `x` with no earlier index holding `x` is what `std::find` returns. -/
theorem std_find_eq_of_first {v : List Ptr} {x : Ptr} {i : Nat} (hi : v[i]? = some x)
    (hfirst : ∀ j, j < i → v[j]? ≠ some x) : std_find v x = i := by
  have hmem : x ∈ v := List.getElem?_mem hi
  have h1 := getElem?_std_find hmem
  have h2 := std_find_first v x
  rcases Nat.lt_trichotomy (std_find v x) i with h | h | h
  · exact absurd h1 (hfirst _ h)
  · exact h
  · exact absurd hi (h2 i h)

theorem dropLast_set_last (v : List Ptr) (x : Ptr) :
    (v.set (v.length - 1) x).dropLast = v.dropLast := by
  apply List.ext_getElem?
  intro j
  simp only [List.getElem?_dropLast, List.length_set]
  split
  · rw [List.getElem?_set_ne (by omega)]
  · rfl

theorem pop_back_iter_swap_last {v : List Ptr} {i : Nat} {x z : Ptr} (hi : v[i]? = some x)
    (hz : v[v.length - 1]? = some z) :
    pop_back (iter_swap v i (v.length - 1)) = (v.set i z).dropLast := by
  unfold pop_back iter_swap
  simp only [hi, hz]
  have h := dropLast_set_last (v.set i z) x
  rw [List.length_set] at h
  exact h

theorem getElem?_last_of_ne_nil {v : List Ptr} (h : v ≠ []) :
    v[v.length - 1]? = some (v.getLast h) := by
  rw [← List.getLast?_eq_getElem?, List.getLast?_eq_getLast _ h]

theorem getLast_set_last {v : List Ptr} {i : Nat} {x z : Ptr} (hi : v[i]? = some x)
    (hz : v[v.length - 1]? = some z) : (v.set i z)[(v.set i z).length - 1]? = some z := by
  rw [List.length_set]
  by_cases h : i = v.length - 1
  · subst h
    obtain ⟨hlt, _⟩ := List.getElem?_eq_some.1 hi
    exact List.getElem?_set_self hlt
  · rw [List.getElem?_set_ne h]; exact hz

theorem dropLast_append_last {w : List Ptr} {z : Ptr} (hz : w[w.length - 1]? = some z) :
    w.dropLast ++ [z] = w := by
  have hne : w ≠ [] := by
    intro e; subst e; simp at hz
  have h := getElem?_last_of_ne_nil hne
  rw [hz] at h
  have h2 := List.dropLast_append_getLast hne
  rw [← Option.some.inj h] at h2
  exact h2

theorem count_swap_pop {v : List Ptr} {i : Nat} {x z : Ptr} (hi : v[i]? = some x)
    (hz : v[v.length - 1]? = some z) (b : Ptr) :
    List.count b (v.set i z).dropLast = List.count b (v.erase x) := by
  obtain ⟨hlt, hx⟩ := List.getElem?_eq_some.1 hi
  have h1 := dropLast_append_last (getLast_set_last hi hz)
  have h2 : List.count b ((v.set i z).dropLast ++ [z]) = List.count b (v.set i z) := by rw [h1]
  rw [List.count_append, List.count_set z b v i hlt, hx] at h2
  rw [List.count_erase]
  simp only [List.count_singleton] at h2
  by_cases hxb : (x == b) = true <;> by_cases hzb : (z == b) = true <;> simp only [hxb, hzb, if_true, if_false] at h2 ⊢ <;> omega

theorem perm_swap_pop {v : List Ptr} {i : Nat} {x z : Ptr} (hi : v[i]? = some x)
    (hz : v[v.length - 1]? = some z) : ((v.set i z).dropLast).Perm (v.erase x) :=
  List.perm_iff_count.2 (count_swap_pop hi hz)

namespace Game

theorem RemoveActor_of_not_mem (g : Game) {actor : Ptr} (h : actor ∉ g._vecActors) :
    g.RemoveActor actor = g := by
  unfold RemoveActor
  simp [(std_find_eq_length_iff _ _).2 h]

theorem RemoveActor_of_mem (g : Game) {actor z : Ptr} (h : actor ∈ g._vecActors)
    (hz : g._vecActors[g._vecActors.length - 1]? = some z) :
    g.RemoveActor actor =
      { g with _vecActors := (g._vecActors.set (std_find g._vecActors actor) z).dropLast } := by
  unfold RemoveActor
  have hne : std_find g._vecActors actor ≠ g._vecActors.length := fun e =>
    (std_find_eq_length_iff _ _).1 e h
  simp only [hne, ne_eq, not_false_eq_true, if_true]
  rw [pop_back_iter_swap_last (getElem?_std_find h) hz]

theorem RemoveActor_perm (g : Game) (actor : Ptr) :
    (g.RemoveActor actor)._vecActors.Perm (g._vecActors.erase actor) := by
  by_cases h : actor ∈ g._vecActors
  · have hne : g._vecActors ≠ [] := List.ne_nil_of_mem h
    rw [RemoveActor_of_mem g h (getElem?_last_of_ne_nil hne)]
    exact perm_swap_pop (getElem?_std_find h) (getElem?_last_of_ne_nil hne)
  · rw [RemoveActor_of_not_mem g h, List.erase_of_not_mem h]

end Game

end Space

namespace Space
namespace Game

theorem RemoveActor_trace (g : Game) (actor : Ptr) : (g.RemoveActor actor).trace = g.trace := by
  simp only [RemoveActor]; split <;> rfl

theorem delete_Actor_trace (g : Game) (actor : Ptr) :
    (g.delete_Actor actor).trace = g.trace ++ [Event.delete_Actor actor] := by
  unfold delete_Actor; rw [RemoveActor_trace]; rfl

theorem delete_Actor_count (g : Game) (actor b : Ptr) :
    (g.delete_Actor actor)._vecActors.count b =
      g._vecActors.count b - if actor = b then 1 else 0 := by
  unfold delete_Actor
  rw [(RemoveActor_perm _ actor).count_eq, List.count_erase]
  simp [emit]

theorem foldl_delete_Actor_count (ds : List Ptr) (g : Game) (b : Ptr) :
    (ds.foldl (fun g actor => g.delete_Actor actor) g)._vecActors.count b =
      g._vecActors.count b - ds.count b := by
  induction ds generalizing g with
  | nil => simp
  | cons d rest ih =>
    rw [List.foldl_cons, ih, delete_Actor_count, List.count_cons]
    by_cases h : d = b
    · simp [h]; omega
    · simp [h]

theorem foldl_delete_Actor_trace (ds : List Ptr) (g : Game) :
    (ds.foldl (fun g actor => g.delete_Actor actor) g).trace =
      g.trace ++ ds.map Event.delete_Actor := by
  induction ds generalizing g with
  | nil => simp
  | cons d rest ih =>
    rw [List.foldl_cons, ih, delete_Actor_trace]; simp

theorem _updateGame_cleanup_count (g : Game) (st : ActorStates) (b : Ptr) :
    (g._updateGame_cleanup st)._vecActors.count b =
      if st b = Actor.State.EDead then 0 else g._vecActors.count b := by
  unfold _updateGame_cleanup deadActors
  rw [foldl_delete_Actor_count]
  by_cases h : st b = Actor.State.EDead
  · rw [List.count_filter (by simpa using h)]; simp [h]
  · have : List.count b (List.filter (fun actor => decide (st actor = Actor.State.EDead)) g._vecActors) = 0 := by
      apply List.count_eq_zero.2
      intro hm
      exact h (by simpa using (List.mem_filter.1 hm).2)
    simp [h, this]

/-- The member `_updateGame` is the wait followed by the rest of the frame. -/
theorem _updateGame_eq_frame (env : Env) (Update : Ptr → Float32 → ActorStates → ActorStates)
    (fuel : Nat) (g : Game) (st : ActorStates) :
    g._updateGame env Update fuel st =
      (g._updateGame_wait env fuel).map (fun g1 => g1._updateGame_frame env Update st) := by
  unfold _updateGame
  cases g._updateGame_wait env fuel <;> rfl

/-- The wait is over at the first clock reading that is 16 ms past `_ticksCount`. -/
theorem _updateGame_wait_passed (env : Env) (fuel : Nat) (g : Game)
    (h : SDL_TICKS_PASSED (env.SDL_GetTicks g.trace % 2 ^ 32) (g._ticksCount + 16) = true) :
    g._updateGame_wait env (fuel + 1) = some (g.emit Event.SDL_GetTicks) := by
  have h2 : SDL_TICKS_PASSED (env.SDL_GetTicks g.trace % 2 ^ 32)
      ((g.emit Event.SDL_GetTicks)._ticksCount + 16) = true := h
  unfold _updateGame_wait
  simp only [h2, Bool.not_true, Bool.false_eq_true, if_false]

end Game
end Space

/-! ## The actor collection: `RemoveActor` and the cleanup of `_updateGame` -/

namespace Space

namespace Game

/-- C3: `RemoveActor` on an actor that is not in the collection leaves the size of
the collection unchanged, and on an actor that is in the collection decreases the
size by exactly one. -/
theorem RemoveActor_size (g : Game) (actor : Ptr) :
    (actor ∉ g._vecActors → (g.RemoveActor actor)._vecActors.length = g._vecActors.length) ∧
    (actor ∈ g._vecActors →
      (g.RemoveActor actor)._vecActors.length + 1 = g._vecActors.length) := by
  constructor
  · intro h; rw [RemoveActor_of_not_mem g h]
  · intro h
    have hp := (RemoveActor_perm g actor).length_eq
    rw [List.length_erase_of_mem h] at hp
    have := List.length_pos_of_mem h
    omega

theorem RemoveActor_size_witness :
    (7 ∉ sampleGame._vecActors ∧ (sampleGame.RemoveActor 7)._vecActors.length = 5) ∧
    (2 ∈ sampleGame._vecActors ∧ (sampleGame.RemoveActor 2)._vecActors.length + 1 = 5) :=
  ⟨⟨by decide, (RemoveActor_size sampleGame 7).1 (by decide)⟩,
   ⟨by decide, (RemoveActor_size sampleGame 2).2 (by decide)⟩⟩

/-- C10: when the first occurrence of `actor` in the collection `L` is at index
`i`, `RemoveActor` yields `L` with the element at index `i` replaced by the last
element of `L` and the last slot dropped: the length is `|L| - 1`, every index
below `|L| - 1` other than `i` is unchanged, index `i` (when it is not the last
one) now holds the former last element, and the multiset of the remaining actors
is that of `L` minus one occurrence of `actor`. -/
theorem RemoveActor_swap_pop (g : Game) (actor : Ptr) (i : Nat)
    (hi : g._vecActors[i]? = some actor)
    (hfirst : ∀ j, j < i → g._vecActors[j]? ≠ some actor) :
    ∃ last, g._vecActors.getLast? = some last ∧
      (g.RemoveActor actor)._vecActors = (g._vecActors.set i last).dropLast ∧
      (g.RemoveActor actor)._vecActors.length = g._vecActors.length - 1 ∧
      (∀ j, j < g._vecActors.length - 1 → j ≠ i →
        (g.RemoveActor actor)._vecActors[j]? = g._vecActors[j]?) ∧
      (i < g._vecActors.length - 1 → (g.RemoveActor actor)._vecActors[i]? = some last) ∧
      ((g.RemoveActor actor)._vecActors : Multiset Ptr) = (g._vecActors : Multiset Ptr).erase actor := by
  have hmem : actor ∈ g._vecActors := List.getElem?_mem hi
  have hne : g._vecActors ≠ [] := List.ne_nil_of_mem hmem
  have hz := getElem?_last_of_ne_nil hne
  have hfind : std_find g._vecActors actor = i := std_find_eq_of_first hi hfirst
  have hrem := RemoveActor_of_mem g hmem hz
  rw [hfind] at hrem
  obtain ⟨hlt, _⟩ := List.getElem?_eq_some.1 hi
  refine ⟨g._vecActors.getLast hne, List.getLast?_eq_getLast _ hne, ?_, ?_, ?_, ?_, ?_⟩
  · rw [hrem]
  · rw [hrem]; simp
  · intro j hj hji
    rw [hrem]
    simp only [List.getElem?_dropLast, List.length_set, hj, if_true]
    exact List.getElem?_set_ne (Ne.symm hji)
  · intro hil
    rw [hrem]
    simp only [List.getElem?_dropLast, List.length_set, hil, if_true]
    exact List.getElem?_set_self hlt
  · rw [Multiset.coe_erase]
    exact Multiset.coe_eq_coe.2 (RemoveActor_perm g actor)

theorem RemoveActor_swap_pop_witness :
    sampleGame._vecActors[1]? = some 2 ∧
    (sampleGame.RemoveActor 2)._vecActors = [1, 5, 3, 2] ∧
    (sampleGame.RemoveActor 2)._vecActors.length = 4 ∧
    ((sampleGame.RemoveActor 2)._vecActors : Multiset Ptr) =
      (sampleGame._vecActors : Multiset Ptr).erase 2 :=
  ⟨by decide, by decide,
   (RemoveActor_swap_pop sampleGame 2 1 (by decide) (by decide)).elim (fun _ h => h.2.2.1),
   (RemoveActor_swap_pop sampleGame 2 1 (by decide) (by decide)).elim
     (fun _ h => h.2.2.2.2.2)⟩

/-- C2: for a duplicate-free collection and any assignment of states, after the
cleanup step of `_updateGame` the collection holds no actor whose state is Dead;
it holds exactly the actors of the original collection that are not Dead, each
once, and the actors that were deleted are exactly the dead ones. -/
theorem _updateGame_cleanup_no_dead (g : Game) (st : ActorStates)
    (hnodup : g._vecActors.Nodup) :
    (∀ a ∈ (g._updateGame_cleanup st)._vecActors, st a ≠ Actor.State.EDead) ∧
    (∀ a, a ∈ (g._updateGame_cleanup st)._vecActors ↔
      (a ∈ g._vecActors ∧ st a ≠ Actor.State.EDead)) ∧
    (g._updateGame_cleanup st)._vecActors.Nodup ∧
    (g._updateGame_cleanup st).trace =
      g.trace ++ (g._vecActors.filter (fun a => st a = Actor.State.EDead)).map Event.delete_Actor := by
  have hiff : ∀ a, a ∈ (g._updateGame_cleanup st)._vecActors ↔
      (a ∈ g._vecActors ∧ st a ≠ Actor.State.EDead) := by
    intro a
    rw [← List.count_pos_iff, _updateGame_cleanup_count]
    by_cases h : st a = Actor.State.EDead
    · simp [h]
    · simp [h, List.count_pos_iff]
  refine ⟨fun a ha => ((hiff a).1 ha).2, hiff, ?_, ?_⟩
  · rw [List.nodup_iff_count_le_one]
    intro a
    rw [_updateGame_cleanup_count]
    split
    · omega
    · exact List.nodup_iff_count_le_one.1 hnodup a
  · exact foldl_delete_Actor_trace _ _

theorem _updateGame_cleanup_no_dead_witness :
    sampleGameNodup._vecActors.Nodup ∧
    (sampleGameNodup._updateGame_cleanup sampleStatesManyDead)._vecActors = [3, 4] ∧
    (sampleGameNodup._updateGame_cleanup sampleStatesManyDead)._vecActors.Nodup ∧
    (sampleGameNodup._updateGame_cleanup sampleStatesManyDead).trace =
      [Event.delete_Actor 1, Event.delete_Actor 2, Event.delete_Actor 5] :=
  ⟨by decide, by decide,
   (_updateGame_cleanup_no_dead sampleGameNodup sampleStatesManyDead (by decide)).2.2.1,
   (_updateGame_cleanup_no_dead sampleGameNodup sampleStatesManyDead (by decide)).2.2.2⟩

end Game
end Space

/-! ## Shut-down: `_unloadData` and `Shutdown` -/

namespace Space

theorem std_find_concat_of_not_mem {l : List Ptr} {a : Ptr} (h : a ∉ l) :
    std_find (l ++ [a]) a = l.length := by
  apply std_find_eq_of_first
  · simp
  · intro j hj e
    rw [List.getElem?_append_left hj] at e
    exact h (List.getElem?_mem e)

namespace Game

/-- Deleting the last actor of a collection in which it occurs only once pops it. -/
theorem delete_Actor_back (g : Game) {l : List Ptr} {a : Ptr} (hv : g._vecActors = l ++ [a])
    (ha : a ∉ l) :
    g.delete_Actor a =
      { g with _vecActors := l, trace := g.trace ++ [Event.delete_Actor a] } := by
  unfold delete_Actor
  have hmem : a ∈ (g.emit (.delete_Actor a))._vecActors := by
    show a ∈ g._vecActors
    rw [hv]; simp
  have hz : (g.emit (.delete_Actor a))._vecActors[(g.emit (.delete_Actor a))._vecActors.length - 1]?
      = some a := by
    show g._vecActors[g._vecActors.length - 1]? = some a
    rw [hv]; simp
  rw [RemoveActor_of_mem _ hmem hz]
  have hset : ((g.emit (.delete_Actor a))._vecActors.set
      (std_find (g.emit (.delete_Actor a))._vecActors a) a).dropLast = l := by
    show (g._vecActors.set (std_find g._vecActors a) a).dropLast = l
    rw [hv, std_find_concat_of_not_mem ha]
    simp
  rw [hset]
  rfl

theorem _unloadData_loop_nodup (fuel : Nat) (g : Game) (hnodup : g._vecActors.Nodup)
    (hfuel : g._vecActors.length ≤ fuel) :
    g._unloadData_loop fuel =
      some { g with
        _vecActors := []
        trace := g.trace ++ g._vecActors.reverse.map Event.delete_Actor } := by
  induction fuel generalizing g with
  | zero =>
    have hnil : g._vecActors = [] := List.length_eq_zero.1 (by omega)
    cases g
    simp only at hnil
    subst hnil
    simp [_unloadData_loop]
  | succ k ih =>
    rcases List.eq_nil_or_concat g._vecActors with hnil | ⟨l, a, hv⟩
    · cases g
      simp only at hnil
      subst hnil
      simp [_unloadData_loop]
    · have hv2 : g._vecActors = l ++ [a] := by rw [hv]; simp
      have hnd : (l ++ [a]).Nodup := hv2 ▸ hnodup
      have ha : a ∉ l := by
        intro hm
        have := List.nodup_append.1 hnd
        exact this.2.2 hm (by simp)
      have hl : l.Nodup := (List.nodup_append.1 hnd).1
      unfold _unloadData_loop
      have hlast : g._vecActors.getLast? = some a := by rw [hv2]; simp
      simp only [hlast]
      rw [delete_Actor_back g hv2 ha]
      rw [ih _ hl (by
        have : g._vecActors.length = l.length + 1 := by rw [hv2]; simp
        show l.length ≤ k
        omega)]
      simp [hv2]

/-- C8: for a duplicate-free actor collection and any texture cache,
`_unloadData` terminates (any bound on the iterations that is at least the number
of actors is enough): deleting the last actor removes it through `RemoveActor`,
so every actor is deleted exactly once (last to first); only afterwards every
cache entry is released with `SDL_DestroyTexture`, exactly once; the actor
collection and the cache end empty. `Shutdown` runs this first and then releases
the image subsystem, the renderer, the window and SDL. -/
theorem _unloadData_terminates (fuel : Nat) (g : Game) (hnodup : g._vecActors.Nodup)
    (hfuel : g._vecActors.length ≤ fuel) :
    g._unloadData fuel =
      some { g with
        _vecActors := []
        _mapTextures := []
        trace := g.trace ++ g._vecActors.reverse.map Event.delete_Actor ++
          g._mapTextures.map (fun i => Event.SDL_DestroyTexture i.2) } ∧
    g.Shutdown fuel =
      some { g with
        _vecActors := []
        _mapTextures := []
        trace := g.trace ++ g._vecActors.reverse.map Event.delete_Actor ++
          g._mapTextures.map (fun i => Event.SDL_DestroyTexture i.2) ++
          [Event.IMG_Quit, Event.SDL_DestroyRenderer g._pRenderer,
           Event.SDL_DestroyWindow g._pWindow, Event.SDL_Quit] } := by
  have h1 : g._unloadData fuel =
      some { g with
        _vecActors := []
        _mapTextures := []
        trace := g.trace ++ g._vecActors.reverse.map Event.delete_Actor ++
          g._mapTextures.map (fun i => Event.SDL_DestroyTexture i.2) } := by
    unfold _unloadData
    rw [_unloadData_loop_nodup fuel g hnodup hfuel]
    rfl
  refine ⟨h1, ?_⟩
  unfold Shutdown
  rw [h1]
  simp [emit]

theorem _unloadData_terminates_witness :
    sampleGameNodup._unloadData 5 =
      some { sampleGameNodup with
        _vecActors := []
        _mapTextures := []
        trace := [.delete_Actor 5, .delete_Actor 4, .delete_Actor 3, .delete_Actor 2,
          .delete_Actor 1, .SDL_DestroyTexture 9, .SDL_DestroyTexture 8] } ∧
    sampleGameNodup.Shutdown 5 =
      some { sampleGameNodup with
        _vecActors := []
        _mapTextures := []
        trace := [.delete_Actor 5, .delete_Actor 4, .delete_Actor 3, .delete_Actor 2,
          .delete_Actor 1, .SDL_DestroyTexture 9, .SDL_DestroyTexture 8, .IMG_Quit,
          .SDL_DestroyRenderer 0, .SDL_DestroyWindow 0, .SDL_Quit] } :=
  _unloadData_terminates 5 sampleGameNodup (by decide) (by decide)

end Game

end Space

/-! ## The texture cache: `GetTexture` -/

namespace Space

theorem c_str_eq_self {s : String} (h : ∀ c ∈ s.data, c ≠ Char.ofNat 0) : c_str s = s := by
  unfold c_str
  have : s.data.takeWhile (fun c => decide (c ≠ Char.ofNat 0)) = s.data := by
    rw [List.takeWhile_eq_self_iff]
    intro c hc
    simpa using h c hc
  rw [this]

theorem map_find_append_singleton (m : List (String × Ptr)) (key k : String) (v : Ptr) :
    map_find (m ++ [(k, v)]) key =
      match map_find m key with
      | some t => some t
      | none => if k = key then some v else none := by
  induction m with
  | nil => simp [map_find]
  | cons e rest ih =>
    obtain ⟨k1, v1⟩ := e
    simp only [List.cons_append, map_find]
    split
    · rfl
    · exact ih

theorem map_find_emplace_self {m : List (String × Ptr)} {key : String} (tex : Ptr)
    (h : map_find m key = none) : map_find (map_emplace m key tex) key = some tex := by
  unfold map_emplace
  rw [h]
  simp only
  rw [map_find_append_singleton, h]
  simp

theorem map_emplace_of_none {m : List (String × Ptr)} {key : String} (tex : Ptr)
    (h : map_find m key = none) : map_emplace m key tex = m ++ [(key, tex)] := by
  unfold map_emplace
  rw [h]

namespace Game

theorem decoderCalls_emit (g : Game) (e : Event) :
    (g.emit e).decoderCalls =
      g.decoderCalls + (match e with | .IMG_Load _ => 1 | _ => 0) := by
  unfold decoderCalls emit
  simp only [List.filter_append, List.length_append]
  cases e <;> simp

theorem GetTexture_cached (env : Env) (g : Game) (fileName_ : String) {tex : Ptr}
    (h : map_find g._mapTextures (g.directory_path ++ fileName_) = some tex) :
    g.GetTexture env fileName_ = (tex, g) := by
  unfold GetTexture
  simp only [h]

/-- The three ways out of `GetTexture` for a path that is not cached. -/
theorem GetTexture_uncached (env : Env) (g : Game) (fileName_ : String)
    (hmiss : map_find g._mapTextures (g.directory_path ++ fileName_) = none) :
    g.GetTexture env fileName_ =
      if env.IMG_Load g.trace (c_str (g.directory_path ++ fileName_)) = nullptr then
        (nullptr, { g with trace := g.trace ++
          [Event.IMG_Load (c_str (g.directory_path ++ fileName_)),
           Event.SDL_Log "Failed to load texture file %s"] })
      else if env.SDL_CreateTextureFromSurface
          (g.trace ++ [Event.IMG_Load (c_str (g.directory_path ++ fileName_))]) g._pRenderer
          (env.IMG_Load g.trace (c_str (g.directory_path ++ fileName_))) = nullptr then
        (nullptr, { g with trace := g.trace ++
          [Event.IMG_Load (c_str (g.directory_path ++ fileName_)),
           Event.SDL_CreateTextureFromSurface g._pRenderer
             (env.IMG_Load g.trace (c_str (g.directory_path ++ fileName_))),
           Event.SDL_FreeSurface (env.IMG_Load g.trace (c_str (g.directory_path ++ fileName_))),
           Event.SDL_Log "Failed to convert surface to texture for %s"] })
      else
        (env.SDL_CreateTextureFromSurface
            (g.trace ++ [Event.IMG_Load (c_str (g.directory_path ++ fileName_))]) g._pRenderer
            (env.IMG_Load g.trace (c_str (g.directory_path ++ fileName_))),
         { g with
           _mapTextures := map_emplace g._mapTextures (c_str (g.directory_path ++ fileName_))
             (env.SDL_CreateTextureFromSurface
               (g.trace ++ [Event.IMG_Load (c_str (g.directory_path ++ fileName_))]) g._pRenderer
               (env.IMG_Load g.trace (c_str (g.directory_path ++ fileName_))))
           trace := g.trace ++
             [Event.IMG_Load (c_str (g.directory_path ++ fileName_)),
              Event.SDL_CreateTextureFromSurface g._pRenderer
                (env.IMG_Load g.trace (c_str (g.directory_path ++ fileName_))),
              Event.SDL_FreeSurface
                (env.IMG_Load g.trace (c_str (g.directory_path ++ fileName_)))] }) := by
  simp only [GetTexture, hmiss, emit, List.append_assoc, List.singleton_append, List.cons_append,
    List.nil_append]

theorem decoderCalls_append_load (g : Game) (file : String) (rest : List Event)
    (hrest : ∀ e ∈ rest, ∀ f, e ≠ Event.IMG_Load f) (g2 : Game)
    (h : g2.trace = g.trace ++ Event.IMG_Load file :: rest) :
    g2.decoderCalls = g.decoderCalls + 1 := by
  unfold decoderCalls
  rw [h, List.filter_append, List.length_append, List.filter_cons]
  simp only [if_true, List.length_cons]
  have : rest.filter (fun e => match e with | .IMG_Load _ => true | _ => false) = [] := by
    rw [List.filter_eq_nil_iff]
    intro e he
    cases e <;> simp
    exact hrest _ he _ rfl
  rw [this]
  rfl

/-- What a successful load of a path that is not cached does. -/
theorem GetTexture_loaded (env : Env) (g : Game) (fileName_ : String)
    (hmiss : map_find g._mapTextures (g.directory_path ++ fileName_) = none)
    (hok : (g.GetTexture env fileName_).1 ≠ nullptr) :
    (g.GetTexture env fileName_).2._mapTextures =
      map_emplace g._mapTextures (c_str (g.directory_path ++ fileName_))
        (g.GetTexture env fileName_).1 ∧
    (g.GetTexture env fileName_).2.directory_path = g.directory_path ∧
    (g.GetTexture env fileName_).2.decoderCalls = g.decoderCalls + 1 := by
  rw [GetTexture_uncached env g fileName_ hmiss] at hok ⊢
  split at hok
  · exact absurd rfl hok
  · split at hok
    · exact absurd rfl hok
    · rename_i h1 h2
      rw [if_neg h1, if_neg h2]
      refine ⟨rfl, rfl, ?_⟩
      apply decoderCalls_append_load g _ _ _ _ rfl
      intro e he f
      simp only [List.mem_cons, List.mem_singleton, List.not_mem_nil, or_false] at he
      rcases he with rfl | rfl <;> simp

/-- C6: for a path that is not cached, when the image decoder fails or the
conversion of the surface to a texture fails, `GetTexture` returns the null
handle and leaves the texture cache as it was, without an entry for that path. -/
theorem GetTexture_failure (env : Env) (g : Game) (fileName_ : String)
    (hmiss : map_find g._mapTextures (g.directory_path ++ fileName_) = none)
    (hfail : env.IMG_Load g.trace (c_str (g.directory_path ++ fileName_)) = nullptr ∨
      env.SDL_CreateTextureFromSurface
        (g.trace ++ [Event.IMG_Load (c_str (g.directory_path ++ fileName_))]) g._pRenderer
        (env.IMG_Load g.trace (c_str (g.directory_path ++ fileName_))) = nullptr) :
    (g.GetTexture env fileName_).1 = nullptr ∧
    (g.GetTexture env fileName_).2._mapTextures = g._mapTextures ∧
    map_find (g.GetTexture env fileName_).2._mapTextures (g.directory_path ++ fileName_) = none := by
  have key : (g.GetTexture env fileName_).1 = nullptr ∧
      (g.GetTexture env fileName_).2._mapTextures = g._mapTextures := by
    rw [GetTexture_uncached env g fileName_ hmiss]
    by_cases h1 : env.IMG_Load g.trace (c_str (g.directory_path ++ fileName_)) = nullptr
    · rw [if_pos h1]
      exact ⟨rfl, rfl⟩
    · rw [if_neg h1]
      rcases hfail with h | h
      · exact absurd h h1
      · rw [if_pos h]
        exact ⟨rfl, rfl⟩
  exact ⟨key.1, key.2, by rw [key.2]; exact hmiss⟩

theorem GetTexture_failure_witness :
    ((sampleGame.GetTexture sampleEnv "zzz").1 = nullptr ∧
      (sampleGame.GetTexture sampleEnv "zzz").2._mapTextures = [("x", 9), ("y", 8)]) ∧
    ((sampleGame.GetTexture sampleEnvNoConversion "a").1 = nullptr ∧
      (sampleGame.GetTexture sampleEnvNoConversion "a").2._mapTextures = [("x", 9), ("y", 8)]) :=
  ⟨⟨(GetTexture_failure sampleEnv sampleGame "zzz" (by decide) (Or.inl (by decide))).1,
    (GetTexture_failure sampleEnv sampleGame "zzz" (by decide) (Or.inl (by decide))).2.1⟩,
   ⟨(GetTexture_failure sampleEnvNoConversion sampleGame "a" (by decide) (Or.inr (by decide))).1,
    (GetTexture_failure sampleEnvNoConversion sampleGame "a" (by decide)
      (Or.inr (by decide))).2.1⟩⟩

/-- Repeated lookups away from the defect: when the resolved path (asset root
followed by the requested name) holds no NUL character and a first `GetTexture`
call succeeds, a second call for the same name returns the identical handle and
changes nothing, so the decoder is not invoked again; over the two calls the
decoder is invoked at most once, and exactly once when the path was not cached
beforehand. -/
theorem GetTexture_twice (env : Env) (g : Game) (fileName_ : String)
    (hNUL : ∀ c ∈ (g.directory_path ++ fileName_).data, c ≠ Char.ofNat 0)
    (hok : (g.GetTexture env fileName_).1 ≠ nullptr) :
    (g.GetTexture env fileName_).2.GetTexture env fileName_ =
      ((g.GetTexture env fileName_).1, (g.GetTexture env fileName_).2) ∧
    ((g.GetTexture env fileName_).2.GetTexture env fileName_).2.decoderCalls ≤
      g.decoderCalls + 1 ∧
    (map_find g._mapTextures (g.directory_path ++ fileName_) = none →
      ((g.GetTexture env fileName_).2.GetTexture env fileName_).2.decoderCalls =
        g.decoderCalls + 1) := by
  cases hfind : map_find g._mapTextures (g.directory_path ++ fileName_) with
  | some tex =>
    have h1 := GetTexture_cached env g fileName_ hfind
    have h2 : (g.GetTexture env fileName_).2.GetTexture env fileName_ =
        ((g.GetTexture env fileName_).1, (g.GetTexture env fileName_).2) := by
      rw [h1]; exact h1
    refine ⟨h2, ?_, ?_⟩
    · rw [h2, h1]; exact Nat.le_succ _
    · intro h; exact absurd h (by simp)
  | none =>
    obtain ⟨hmap, hdir, hcalls⟩ := GetTexture_loaded env g fileName_ hfind hok
    rw [c_str_eq_self hNUL] at hmap
    have hhit : map_find (g.GetTexture env fileName_).2._mapTextures
        ((g.GetTexture env fileName_).2.directory_path ++ fileName_) =
        some (g.GetTexture env fileName_).1 := by
      rw [hmap, hdir]
      exact map_find_emplace_self _ hfind
    have h2 := GetTexture_cached env (g.GetTexture env fileName_).2 fileName_ hhit
    refine ⟨h2, ?_, ?_⟩
    · rw [h2, hcalls]
    · intro _; rw [h2, hcalls]

theorem GetTexture_twice_sample :
    ((Game.new "").GetTexture sampleEnv "a").1 ≠ nullptr ∧
    (((Game.new "").GetTexture sampleEnv "a").2.GetTexture sampleEnv "a").1 =
      ((Game.new "").GetTexture sampleEnv "a").1 ∧
    (((Game.new "").GetTexture sampleEnv "a").2.GetTexture sampleEnv "a").2.decoderCalls = 1 :=
  ⟨by decide,
   congrArg Prod.fst (GetTexture_twice sampleEnv (Game.new "") "a" (by decide) (by decide)).1,
   (GetTexture_twice sampleEnv (Game.new "") "a" (by decide) (by decide)).2.2 (by decide)⟩

/-- Two paths away from the defect: starting from an empty cache, for two
distinct resolved paths that hold no NUL character and whose loads both succeed,
calling `GetTexture` on each leaves exactly two cache entries, one keyed by each
resolved path, and each resolved path maps to the handle returned for it. -/
theorem GetTexture_two_paths (env : Env) (g : Game) (f1 f2 : String)
    (hempty : g._mapTextures = [])
    (hne : g.directory_path ++ f1 ≠ g.directory_path ++ f2)
    (hNUL1 : ∀ c ∈ (g.directory_path ++ f1).data, c ≠ Char.ofNat 0)
    (hNUL2 : ∀ c ∈ (g.directory_path ++ f2).data, c ≠ Char.ofNat 0)
    (hok1 : (g.GetTexture env f1).1 ≠ nullptr)
    (hok2 : ((g.GetTexture env f1).2.GetTexture env f2).1 ≠ nullptr) :
    ((g.GetTexture env f1).2.GetTexture env f2).2._mapTextures =
      [(g.directory_path ++ f1, (g.GetTexture env f1).1),
       (g.directory_path ++ f2, ((g.GetTexture env f1).2.GetTexture env f2).1)] ∧
    map_find ((g.GetTexture env f1).2.GetTexture env f2).2._mapTextures
      (g.directory_path ++ f1) = some (g.GetTexture env f1).1 ∧
    map_find ((g.GetTexture env f1).2.GetTexture env f2).2._mapTextures
      (g.directory_path ++ f2) = some ((g.GetTexture env f1).2.GetTexture env f2).1 := by
  have hmiss1 : map_find g._mapTextures (g.directory_path ++ f1) = none := by
    rw [hempty]; rfl
  obtain ⟨hmap1, hdir1, _⟩ := GetTexture_loaded env g f1 hmiss1 hok1
  rw [c_str_eq_self hNUL1, map_emplace_of_none _ hmiss1, hempty, List.nil_append] at hmap1
  have hmiss2 : map_find (g.GetTexture env f1).2._mapTextures
      ((g.GetTexture env f1).2.directory_path ++ f2) = none := by
    rw [hmap1, hdir1]
    simp [map_find, hne]
  obtain ⟨hmap2, _, _⟩ := GetTexture_loaded env _ f2 hmiss2 hok2
  rw [hdir1] at hmap2 hmiss2
  rw [c_str_eq_self hNUL2, map_emplace_of_none _ hmiss2, hmap1] at hmap2
  have hfinal : ((g.GetTexture env f1).2.GetTexture env f2).2._mapTextures =
      [(g.directory_path ++ f1, (g.GetTexture env f1).1),
       (g.directory_path ++ f2, ((g.GetTexture env f1).2.GetTexture env f2).1)] := hmap2
  refine ⟨hfinal, ?_, ?_⟩
  · rw [hfinal]; simp [map_find]
  · rw [hfinal]; simp [map_find, hne]

theorem GetTexture_two_paths_sample :
    (((Game.new "").GetTexture sampleEnv "a").2.GetTexture sampleEnv "b").2._mapTextures =
      [("a", 101), ("b", 104)] ∧
    ((Game.new "").GetTexture sampleEnv "a").1 = 101 ∧
    (((Game.new "").GetTexture sampleEnv "a").2.GetTexture sampleEnv "b").1 = 104 ∧
    map_find (((Game.new "").GetTexture sampleEnv "a").2.GetTexture sampleEnv "b").2._mapTextures
      "a" = some 101 :=
  ⟨by decide, by decide, by decide,
   (GetTexture_two_paths sampleEnv (Game.new "") "a" "b" rfl (by decide) (by decide) (by decide)
      (by decide) (by decide)).2.1⟩

end Game

end Space

/-! ## Start-up: `Initialize` -/

namespace Space

namespace Game

/-- C7: `Initialize` returns success exactly when all four acquisition steps
(SDL, window, renderer, image subsystem) succeed. When a step fails, the call
returns failure right after logging: the trace shows the steps up to the failing
one and the log line and nothing later, no content is loaded (the actor
collection and the texture cache are untouched) and the tick count is not
recorded. -/
theorem Initialize_succeeds_iff (env : Env) (g : Game) :
    ((g.Initialize env).1 = true ↔
      (env.SDL_Init = 0 ∧ env.SDL_CreateWindow ≠ nullptr ∧
       env.SDL_CreateRenderer env.SDL_CreateWindow ≠ nullptr ∧ env.IMG_Init ≠ 0)) ∧
    (env.SDL_Init ≠ 0 →
      g.Initialize env =
        (false, { g with
          trace := g.trace ++ [Event.SDL_Init, Event.SDL_Log "Unable to initialize SDL: %s"] })) ∧
    (env.SDL_Init = 0 → env.SDL_CreateWindow = nullptr →
      g.Initialize env =
        (false, { g with
          _pWindow := nullptr
          trace := g.trace ++ [Event.SDL_Init, Event.SDL_CreateWindow,
            Event.SDL_Log "Failed to create window: %s"] })) ∧
    (env.SDL_Init = 0 → env.SDL_CreateWindow ≠ nullptr →
      env.SDL_CreateRenderer env.SDL_CreateWindow = nullptr →
      g.Initialize env =
        (false, { g with
          _pWindow := env.SDL_CreateWindow
          _pRenderer := nullptr
          trace := g.trace ++ [Event.SDL_Init, Event.SDL_CreateWindow,
            Event.SDL_CreateRenderer env.SDL_CreateWindow,
            Event.SDL_Log "Failed to create renderer: %s"] })) ∧
    (env.SDL_Init = 0 → env.SDL_CreateWindow ≠ nullptr →
      env.SDL_CreateRenderer env.SDL_CreateWindow ≠ nullptr → env.IMG_Init = 0 →
      g.Initialize env =
        (false, { g with
          _pWindow := env.SDL_CreateWindow
          _pRenderer := env.SDL_CreateRenderer env.SDL_CreateWindow
          trace := g.trace ++ [Event.SDL_Init, Event.SDL_CreateWindow,
            Event.SDL_CreateRenderer env.SDL_CreateWindow, Event.IMG_Init,
            Event.SDL_Log "Unable to initialize SDL_image: %s"] })) ∧
    ((g.Initialize env).1 = false →
      (g.Initialize env).2._vecActors = g._vecActors ∧
      (g.Initialize env).2._mapTextures = g._mapTextures ∧
      (g.Initialize env).2._ticksCount = g._ticksCount) := by
  have e1 : env.SDL_Init ≠ 0 →
      g.Initialize env =
        (false, { g with
          trace := g.trace ++ [Event.SDL_Init, Event.SDL_Log "Unable to initialize SDL: %s"] }) := by
    intro h
    simp [Initialize, emit, h]
  have e2 : env.SDL_Init = 0 → env.SDL_CreateWindow = nullptr →
      g.Initialize env =
        (false, { g with
          _pWindow := nullptr
          trace := g.trace ++ [Event.SDL_Init, Event.SDL_CreateWindow,
            Event.SDL_Log "Failed to create window: %s"] }) := by
    intro h1 h2
    simp [Initialize, emit, h1, h2]
  have e3 : env.SDL_Init = 0 → env.SDL_CreateWindow ≠ nullptr →
      env.SDL_CreateRenderer env.SDL_CreateWindow = nullptr →
      g.Initialize env =
        (false, { g with
          _pWindow := env.SDL_CreateWindow
          _pRenderer := nullptr
          trace := g.trace ++ [Event.SDL_Init, Event.SDL_CreateWindow,
            Event.SDL_CreateRenderer env.SDL_CreateWindow,
            Event.SDL_Log "Failed to create renderer: %s"] }) := by
    intro h1 h2 h3
    simp [Initialize, emit, h1, h2, h3]
  have e4 : env.SDL_Init = 0 → env.SDL_CreateWindow ≠ nullptr →
      env.SDL_CreateRenderer env.SDL_CreateWindow ≠ nullptr → env.IMG_Init = 0 →
      g.Initialize env =
        (false, { g with
          _pWindow := env.SDL_CreateWindow
          _pRenderer := env.SDL_CreateRenderer env.SDL_CreateWindow
          trace := g.trace ++ [Event.SDL_Init, Event.SDL_CreateWindow,
            Event.SDL_CreateRenderer env.SDL_CreateWindow, Event.IMG_Init,
            Event.SDL_Log "Unable to initialize SDL_image: %s"] }) := by
    intro h1 h2 h3 h4
    simp [Initialize, emit, h1, h2, h3, h4]
  have e5 : env.SDL_Init = 0 → env.SDL_CreateWindow ≠ nullptr →
      env.SDL_CreateRenderer env.SDL_CreateWindow ≠ nullptr → env.IMG_Init ≠ 0 →
      (g.Initialize env).1 = true := by
    intro h1 h2 h3 h4
    simp [Initialize, emit, h1, h2, h3, h4]
  refine ⟨?_, e1, e2, e3, e4, ?_⟩
  · constructor
    · intro h
      by_cases h1 : env.SDL_Init = 0
      · by_cases h2 : env.SDL_CreateWindow = nullptr
        · rw [e2 h1 h2] at h; exact absurd h (by simp)
        · by_cases h3 : env.SDL_CreateRenderer env.SDL_CreateWindow = nullptr
          · rw [e3 h1 h2 h3] at h; exact absurd h (by simp)
          · by_cases h4 : env.IMG_Init = 0
            · rw [e4 h1 h2 h3 h4] at h; exact absurd h (by simp)
            · exact ⟨h1, h2, h3, h4⟩
      · rw [e1 h1] at h; exact absurd h (by simp)
    · rintro ⟨h1, h2, h3, h4⟩
      exact e5 h1 h2 h3 h4
  · intro h
    by_cases h1 : env.SDL_Init = 0
    · by_cases h2 : env.SDL_CreateWindow = nullptr
      · rw [e2 h1 h2]; exact ⟨rfl, rfl, rfl⟩
      · by_cases h3 : env.SDL_CreateRenderer env.SDL_CreateWindow = nullptr
        · rw [e3 h1 h2 h3]; exact ⟨rfl, rfl, rfl⟩
        · by_cases h4 : env.IMG_Init = 0
          · rw [e4 h1 h2 h3 h4]; exact ⟨rfl, rfl, rfl⟩
          · rw [e5 h1 h2 h3 h4] at h; exact absurd h (by simp)
    · rw [e1 h1]; exact ⟨rfl, rfl, rfl⟩

theorem Initialize_succeeds_iff_witness :
    (sampleGame.Initialize sampleEnv).1 = true ∧
    (sampleGame.Initialize sampleEnvNoRenderer).1 = false ∧
    (sampleGame.Initialize sampleEnvNoRenderer).2.trace =
      [Event.SDL_Init, Event.SDL_CreateWindow, Event.SDL_CreateRenderer 5,
       Event.SDL_Log "Failed to create renderer: %s"] ∧
    (sampleGame.Initialize sampleEnvNoRenderer).2._ticksCount = sampleGame._ticksCount :=
  ⟨(Initialize_succeeds_iff sampleEnv sampleGame).1.2 (by decide),
   congrArg Prod.fst
     ((Initialize_succeeds_iff sampleEnvNoRenderer sampleGame).2.2.2.1 (by decide) (by decide)
       (by decide)),
   congrArg (fun r => r.2.trace)
     ((Initialize_succeeds_iff sampleEnvNoRenderer sampleGame).2.2.2.1 (by decide) (by decide)
       (by decide)),
   ((Initialize_succeeds_iff sampleEnvNoRenderer sampleGame).2.2.2.2.2 (by decide)).2.2⟩

end Game

end Space

/-! ## The capped time step of `_updateGame` -/

namespace Space

namespace Float32

theorem ilog2_go_eq_log (fuel n : Nat) (h : n ≤ fuel) : ilog2_go fuel n = Nat.log 2 n := by
  induction fuel generalizing n with
  | zero =>
    have : n = 0 := by omega
    subst this
    simp [ilog2_go]
  | succ k ih =>
    simp only [ilog2_go]
    split
    · rw [Nat.log_of_lt (by omega)]
    · rw [ih (n / 2) (by omega)]
      exact (Nat.log_of_one_lt_of_le (by omega) (by omega)).symm

/-- The worker `ilog2` is the floor of the binary logarithm. -/
theorem ilog2_eq_log (n : Nat) : ilog2 n = Nat.log 2 n := ilog2_go_eq_log n n (le_refl _)

theorem lt_iff_units (a b : Float32) : a < b ↔ a.units < b.units := Iff.rfl

set_option maxRecDepth 100000 in
/-- The literal `1000.0f` is exactly `1000`. -/
theorem literal_1000 : literal 1000 1 = ⟨1000 * 2 ^ 149⟩ := by decide

end Float32

namespace Game

set_option maxRecDepth 100000 in
/-- Sample values of the time step: 16 ms give `0.016f`, 49 ms give `0.049f`, and
50 ms, one second or a clock that wrapped around all give the cap `0.05f`. -/
theorem deltaTime_samples :
    deltaTime 16 0 = ⟨8589935 * 2 ^ 120⟩ ∧
    deltaTime 1049 1000 = ⟨13153337 * 2 ^ 121⟩ ∧
    deltaTime 50 0 = Float32.literal 5 100 ∧
    deltaTime 1000 0 = Float32.literal 5 100 ∧
    deltaTime 5 (2 ^ 32 - 100) = Float32.literal 5 100 := by
  decide


end Game

end Space
